import Mathlib

set_option maxHeartbeats 1000000

/-!
Shallow embedding of the core of the `tsclientlib`/`tsproto` TeamSpeak client
library (files `tsproto/src/connection.rs`, `tsproto/src/resend.rs` and
`tsclientlib/src/lib.rs`) together with proofs about the receive window, the
resender state machine and the connection manager.

Modelling conventions:
* `u16`/`usize` values are `Nat` with explicit `% 2^16` style bounds where
  overflow matters; Rust's `u16 -> u32` widening is exact on `Nat` and the
  final `as u16` cast is an explicit `% 65536`.
* `chrono::DateTime<Utc>` instants and `chrono::Duration` durations are `Int`
  (a fixed sub-second unit); `signed_duration_since` is subtraction.
* `BinaryHeap<SendRecord>` and `Vec<SendRecord>` are both modelled by the list
  of their elements; for the heap, the head of the list models the element
  returned by `peek` and `pop`, and `push` appends.
* Task/waker plumbing (`resender_task`, `resender_future_task`) and logging
  have no observable effect on the modelled fields and are omitted.
-/

/-- Modelled from the spec: `PacketType` lives in tsproto's `packets.rs`,
which is not among the provided sources; the spec describes it as the closed
enumeration of packet classes Voice, VoiceWhisper, Command, CommandLow, Ping,
Pong, Ack, AckLow, Init. -/
inductive PacketType where
  | Voice
  | VoiceWhisper
  | Command
  | CommandLow
  | Ping
  | Pong
  | Ack
  | AckLow
  | Init
  deriving DecidableEq, Repr

/-- Raw UDP packet contents (`UdpPacket` from `packets.rs` is external; only
its payload bytes matter to the modelled code). -/
abbrev UdpPacket := List Nat

/-- A point in time (`chrono::DateTime<Utc>`), as an integer instant. -/
abbrev DateTimeUtc := Int

/-- A time span (`chrono::Duration`), as an integer amount. -/
abbrev Duration := Int

/-- `total_cmp` on `Nat`, mirroring Rust's `u16::cmp`. -/
def cmpNat (a b : Nat) : Ordering :=
  if a < b then Ordering.lt else if a = b then Ordering.eq else Ordering.gt

/-- Comparison on instants, mirroring Rust's `DateTime::cmp`. -/
def cmpInt (a b : Int) : Ordering :=
  if a < b then Ordering.lt else if a = b then Ordering.eq else Ordering.gt

/-- `SendRecord` from `resend.rs`: a record of a packet that can be resent. -/
structure SendRecord where
  sent : DateTimeUtc
  last : DateTimeUtc
  tries : Nat
  p_type : PacketType
  p_id : Nat
  packet : UdpPacket
  deriving DecidableEq, Repr

/-- `impl Ord for SendRecord` (`resend.rs` lines 50-70): unsent packets are
more important; among unsent ones the smaller id, among sent ones the smaller
last send time, then the smaller id. `Ordering::reverse` is `Ordering.swap`. -/
def SendRecord.cmp (a b : SendRecord) : Ordering :=
  if a.tries = 0 then
    if b.tries = 0 then
      (cmpNat a.p_id b.p_id).swap
    else
      Ordering.gt
  else if b.tries = 0 then
    Ordering.lt
  else
    match (cmpInt a.last b.last).swap with
    | Ordering.eq => (cmpNat a.p_id b.p_id).swap
    | c => c

/-- `ConnectedParams` from `connection.rs`. Headers of parked packets are
external (`packets.rs`); a parked entry is modelled as opaque header data
paired with the payload. The per-type id counters are functions from the
packet type instead of arrays indexed by `PacketType::to_usize`. -/
structure ConnectedParams where
  outgoing_p_ids : PacketType → Nat × Nat
  receive_queue : Fin 2 → List (Nat × List Nat)
  fragmented_queue : Fin 2 → Option (Nat × List Nat)
  incoming_p_ids : PacketType → Nat × Nat
  c_id : Nat
  voice_encryption : Bool
  public_key : Nat
  shared_iv : List Nat
  shared_mac : List Nat

/-- `ConnectedParams::in_receive_window` (`connection.rs` lines 70-87):
`limit = ((cur_next + u16::MAX / 2) % u16::MAX) as u16` with
`u16::MAX = 65535`, then the window test against `cur_next` and `limit`.
The trailing `% 65536` is the `as u16` cast. -/
def ConnectedParams.in_receive_window (self : ConnectedParams)
    (p_type : PacketType) (p_id : Nat) : Bool × Nat × Nat :=
  let cur_next := (self.incoming_p_ids p_type).2
  let limit := ((cur_next + 65535 / 2) % 65535) % 65536
  ((decide (cur_next < limit) && decide (p_id ≥ cur_next) && decide (p_id < limit)) ||
    (decide (cur_next > limit) && (decide (p_id ≥ cur_next) || decide (p_id < limit))),
    cur_next, limit)

/-- The acceptance predicate exactly as the spec words it: `p` is accepted iff
`(p − n) mod 2^16 < 2^15`, written on `Nat` for `p, n < 2^16`. -/
def specWindowAccept (n p : Nat) : Prop :=
  (p + 65536 - n) % 65536 < 32768

/-- `ResendConfig` from `resend.rs` lines 528-557. -/
structure ResendConfig where
  connecting_interval : Duration
  connecting_timeout : Duration
  normal_timeout : Duration
  stalling_interval : Duration
  stalling_timeout : Duration
  dead_timeout : Duration
  disconnect_timeout : Duration
  disconnect_interval : Duration
  srtt : Duration
  srtt_dev : Duration
  max_send_queue_len : Nat
  deriving Repr

/-- `ResendStates` from `resend.rs` lines 418-452; `to_send` heaps and vecs
are both modelled by their element lists. -/
inductive ResendStates where
  | Connecting (to_send : List SendRecord) (start_time : DateTimeUtc)
  | Normal (to_send : List SendRecord)
  | Stalling (to_send : List SendRecord) (start_time : DateTimeUtc)
  | Dead (to_send : List SendRecord) (start_time : DateTimeUtc)
  | Disconnecting (to_send : List SendRecord) (start_time : DateTimeUtc)
  deriving DecidableEq, Repr

/-- The queue of records held by a state, irrespective of the variant. -/
def ResendStates.to_send_list : ResendStates → List SendRecord
  | ResendStates.Connecting v _ => v
  | ResendStates.Normal v => v
  | ResendStates.Stalling v _ => v
  | ResendStates.Dead v _ => v
  | ResendStates.Disconnecting v _ => v

/-- Whether the state is the `Stalling` variant. -/
def ResendStates.isStalling : ResendStates → Bool
  | ResendStates.Stalling _ _ => true
  | _ => false

/-- Whether the state is the `Normal` variant. -/
def ResendStates.isNormal : ResendStates → Bool
  | ResendStates.Normal _ => true
  | _ => false

/-- `DefaultResender` from `resend.rs` lines 75-97 (logger and task fields
omitted, see the module comment). -/
structure DefaultResender where
  state : ResendStates
  config : ResendConfig
  srtt : Duration
  srtt_dev : Duration

/-- `DefaultResender::update_srtt` (`resend.rs` lines 119-127). -/
def update_srtt (r : DefaultResender) (rtt : Duration) : DefaultResender :=
  let diff := if rtt > r.srtt then rtt - r.srtt else r.srtt - rtt
  { r with
    srtt_dev := r.srtt_dev * 3 / 4 + diff / 4,
    srtt := r.srtt * 7 / 8 + rtt / 8 }

/-- Remove the first record matching `(p_type, p_id)` from a list, returning
it together with the remaining list: `Vec::remove` at
`iter().position(|rec| rec.p_type == p_type && rec.p_id == p_id)`. -/
def removeFirst (p_type : PacketType) (p_id : Nat) :
    List SendRecord → Option SendRecord × List SendRecord
  | [] => (none, [])
  | rec :: rest =>
    if rec.p_type = p_type ∧ rec.p_id = p_id then
      (some rec, rest)
    else
      ((removeFirst p_type p_id rest).1, rec :: (removeFirst p_type p_id rest).2)

/-- The record-removal phase of `DefaultResender::ack_packet` (`resend.rs`
lines 154-189).  For the vec states this is a positional search and remove;
for the heap states the code pops when the peeked top matches and otherwise
converts the heap to a vec and removes positionally, which on the modelled
element list is the same first-match removal. -/
def ackRemove (p_type : PacketType) (p_id : Nat) :
    ResendStates → Option SendRecord × ResendStates
  | ResendStates.Stalling v t =>
    ((removeFirst p_type p_id v).1,
      ResendStates.Stalling (removeFirst p_type p_id v).2 t)
  | ResendStates.Dead v t =>
    ((removeFirst p_type p_id v).1,
      ResendStates.Dead (removeFirst p_type p_id v).2 t)
  | ResendStates.Connecting v t =>
    ((removeFirst p_type p_id v).1,
      ResendStates.Connecting (removeFirst p_type p_id v).2 t)
  | ResendStates.Normal v =>
    ((removeFirst p_type p_id v).1,
      ResendStates.Normal (removeFirst p_type p_id v).2)
  | ResendStates.Disconnecting v t =>
    ((removeFirst p_type p_id v).1,
      ResendStates.Disconnecting (removeFirst p_type p_id v).2 t)

/-- `DefaultResender::ack_packet` (`resend.rs` lines 153-233): remove the
acked record, update the smoothed rtt when the removed record was sent exactly
once (`rtt = now - rec.sent`), and leave `Stalling` for `Normal`, resetting
every remaining record's `tries` and setting `srtt = normal_timeout / 4`. -/
def ack_packet (now : DateTimeUtc) (r : DefaultResender)
    (p_type : PacketType) (p_id : Nat) : DefaultResender :=
  let res := ackRemove p_type p_id r.state
  let r1 : DefaultResender := { r with state := res.2 }
  let r2 : DefaultResender :=
    match res.1 with
    | some rec => if rec.tries = 1 then update_srtt r1 (now - rec.sent) else r1
    | none => r1
  match r2.state with
  | ResendStates.Stalling v _ =>
    { r2 with
      state := ResendStates.Normal (v.map fun rec => { rec with tries := 0 }),
      srtt := r2.config.normal_timeout / 4 }
  | _ => r2

/-- `DefaultResender::send_voice_packets` (`resend.rs` lines 235-243). -/
def send_voice_packets (r : DefaultResender) (_ : PacketType) : Bool :=
  match r.state with
  | ResendStates.Connecting _ _ | ResendStates.Stalling _ _
  | ResendStates.Dead _ _ | ResendStates.Disconnecting _ _ => false
  | ResendStates.Normal _ => true

/-- `futures::AsyncSink`: result of `start_send`. -/
inductive AsyncSink where
  | Ready
  | NotReady (item : PacketType × Nat × UdpPacket)
  deriving DecidableEq, Repr

/-- `<DefaultResender as Sink>::start_send` (`resend.rs` lines 353-407): build
a fresh record (`sent = last = now`, `tries = 0`); if the current queue is
full, hand the item back as `NotReady`; otherwise push it (for `Connecting`
and `Disconnecting` also stamping `start_time = now`) and return `Ready`. -/
def start_send (now : DateTimeUtc) (r : DefaultResender)
    (p_type : PacketType) (p_id : Nat) (packet : UdpPacket) :
    DefaultResender × AsyncSink :=
  let sr : SendRecord :=
    { sent := now, last := now, tries := 0, p_type := p_type, p_id := p_id,
      packet := packet }
  match r.state with
  | ResendStates.Connecting v _ =>
    if v.length ≥ r.config.max_send_queue_len then
      (r, AsyncSink.NotReady (sr.p_type, sr.p_id, sr.packet))
    else
      ({ r with state := ResendStates.Connecting (v ++ [sr]) now },
        AsyncSink.Ready)
  | ResendStates.Disconnecting v _ =>
    if v.length ≥ r.config.max_send_queue_len then
      (r, AsyncSink.NotReady (sr.p_type, sr.p_id, sr.packet))
    else
      ({ r with state := ResendStates.Disconnecting (v ++ [sr]) now },
        AsyncSink.Ready)
  | ResendStates.Stalling v t =>
    if v.length ≥ r.config.max_send_queue_len then
      (r, AsyncSink.NotReady (sr.p_type, sr.p_id, sr.packet))
    else
      ({ r with state := ResendStates.Stalling (v ++ [sr]) t },
        AsyncSink.Ready)
  | ResendStates.Dead v t =>
    if v.length ≥ r.config.max_send_queue_len then
      (r, AsyncSink.NotReady (sr.p_type, sr.p_id, sr.packet))
    else
      ({ r with state := ResendStates.Dead (v ++ [sr]) t },
        AsyncSink.Ready)
  | ResendStates.Normal v =>
    if v.length ≥ r.config.max_send_queue_len then
      (r, AsyncSink.NotReady (sr.p_type, sr.p_id, sr.packet))
    else
      ({ r with state := ResendStates.Normal (v ++ [sr]) },
        AsyncSink.Ready)

/-- `InnerCM` from `tsclientlib/src/lib.rs` lines 124-128: the manager's
inner state.  The handle and logger are opaque; the connection map is
modelled by its key set (keys are the `usize` inside `ConnectionId`). -/
structure InnerCM where
  handle : Nat
  logger : Nat
  connections : Finset Nat

/-- The loop body of `find_connection_id`: try ids `i, i+1, ...` while fuel
remains; `none` models falling through to the `unreachable!` branch. -/
def findIdLoop (c : Finset Nat) : Nat → Nat → Option Nat
  | _, 0 => none
  | i, fuel + 1 => if i ∈ c then findIdLoop c (i + 1) fuel else some i

/-- `InnerCM::find_connection_id` (`lib.rs` lines 132-140): scan
`0 .. connections.len() + 1` for the first id that is not a key; the
`unreachable!` fall-through is the `none` result. -/
def InnerCM.find_connection_id (cm : InnerCM) : Option Nat :=
  findIdLoop cm.connections 0 (cm.connections.card + 1)

/-- Outcome of the synchronous head of `remove_connection`: either the early
`future::ok(())` return for an unknown id, or the id was removed and the
disconnect command path runs. -/
inductive RemoveOutcome where
  | immediateOk
  | disconnecting (id : Nat)
  deriving DecidableEq, Repr

/-- `ConnectionManager::remove_connection` (`lib.rs` lines 335-350),
synchronous head: `connections.remove(&id)` returns `None` for an unknown id
and the function immediately returns a resolved future, leaving the manager
untouched; otherwise the entry is removed and the disconnect path follows. -/
def InnerCM.remove_connection (cm : InnerCM) (id : Nat) :
    InnerCM × RemoveOutcome :=
  if id ∈ cm.connections then
    ({ cm with connections := cm.connections.erase id },
      RemoveOutcome.disconnecting id)
  else
    (cm, RemoveOutcome.immediateOk)

/-- A concrete connection-parameter record whose expected incoming id is `0`
for every packet class. -/
def cexParams : ConnectedParams :=
  { outgoing_p_ids := fun _ => (0, 0)
    receive_queue := fun _ => []
    fragmented_queue := fun _ => none
    incoming_p_ids := fun _ => (0, 0)
    c_id := 0
    voice_encryption := true
    public_key := 0
    shared_iv := []
    shared_mac := [] }

/-- A concrete resend configuration (durations in milliseconds). -/
def testConfig : ResendConfig :=
  { connecting_interval := 1000
    connecting_timeout := 5000
    normal_timeout := 4000
    stalling_interval := 5000
    stalling_timeout := 30000
    dead_timeout := 0
    disconnect_timeout := 5000
    disconnect_interval := 1000
    srtt := 2500
    srtt_dev := 0
    max_send_queue_len := 2 }

/-- A concrete record that has been sent twice. -/
def recA : SendRecord :=
  { sent := 0, last := 0, tries := 2, p_type := PacketType.Command, p_id := 1,
    packet := [] }

/-- A concrete record that has been sent exactly once. -/
def recB : SendRecord :=
  { sent := 0, last := 10, tries := 1, p_type := PacketType.Command, p_id := 2,
    packet := [7] }

/-- A concrete resender in the `Stalling` state holding `recA`. -/
def stallingResender : DefaultResender :=
  { state := ResendStates.Stalling [recA] 0, config := testConfig,
    srtt := 100, srtt_dev := 7 }

/-- A concrete resender in the `Normal` state holding `recB`. -/
def normalResender : DefaultResender :=
  { state := ResendStates.Normal [recB], config := testConfig,
    srtt := 100, srtt_dev := 8 }

/-- A concrete resender in the `Connecting` state with an empty queue. -/
def connectingResender : DefaultResender :=
  { state := ResendStates.Connecting [] 42, config := testConfig,
    srtt := 100, srtt_dev := 8 }

/-- A concrete resender whose `Normal` queue is at `max_send_queue_len`. -/
def fullResender : DefaultResender :=
  { state := ResendStates.Normal [recA, recB], config := testConfig,
    srtt := 100, srtt_dev := 8 }

/-- A concrete manager state with no live connections. -/
def emptyCM : InnerCM :=
  { handle := 0, logger := 0, connections := ∅ }

theorem removeFirst_mem_of_not_matching (p_type : PacketType) (p_id : Nat) :
    ∀ (l : List SendRecord) (sr : SendRecord), sr ∈ l →
      (sr.p_type = p_type ∧ sr.p_id = p_id) ∨ sr ∈ (removeFirst p_type p_id l).2 := by
  intro l
  induction l with
  | nil => intro sr h; cases h
  | cons hd tl ih =>
    intro sr h
    rcases List.mem_cons.mp h with h | h
    · subst h
      by_cases hm : sr.p_type = p_type ∧ sr.p_id = p_id
      · exact Or.inl hm
      · right
        simp only [removeFirst, if_neg hm]
        exact List.mem_cons_self _ _
    · by_cases hm : hd.p_type = p_type ∧ hd.p_id = p_id
      · right
        simp only [removeFirst, if_pos hm]
        exact h
      · rcases ih sr h with h2 | h2
        · exact Or.inl h2
        · right
          simp only [removeFirst, if_neg hm]
          exact List.mem_cons_of_mem _ h2

/-- C1 (counterexample): with `next = 0` the packet id `32767 = 2^15 − 1` lies
in the claimed half-window `[0, 2^15)` but `in_receive_window` rejects it,
because the limit is computed modulo `2^16 − 1 = 65535`:
`limit = (0 + 32767) % 65535 = 32767` and the test demands `p < limit`. -/
theorem claimC1_counterexample :
    ¬(((cexParams.in_receive_window PacketType.Command 32767).1 = true) ↔
      specWindowAccept 0 32767) := by
  simp only [specWindowAccept]
  decide

/-- C1 (amended): with `next = n`, a packet id `p` (both 16-bit) is accepted
iff `(p − n) mod 2^16 < 2^15` with the single exception of `p = n + 2^15 − 1`
when `n < 2^15`, which falls outside the window: the upper limit is computed
modulo `2^16 − 1`, so whenever the window does not wrap it is one id short of
the claimed half-window. -/
theorem claimC1_in_receive_window (params : ConnectedParams) (t : PacketType)
    (n p : Nat) (hn : (params.incoming_p_ids t).2 = n)
    (h1 : n < 65536) (h2 : p < 65536) :
    ((params.in_receive_window t p).1 = true) ↔
      (specWindowAccept n p ∧ ¬(n < 32768 ∧ p = n + 32767)) := by
  simp only [ConnectedParams.in_receive_window, specWindowAccept, hn,
    Bool.or_eq_true, Bool.and_eq_true, decide_eq_true_eq, ge_iff_le, gt_iff_lt]
  have h3 : (n + 65535 / 2) % 65535 < 65535 := Nat.mod_lt _ (by norm_num)
  have hfold : ((n + 65535 / 2) % 65535) % 65536 = (n + 32767) % 65535 := by
    rw [Nat.mod_eq_of_lt (by omega : (n + 65535 / 2) % 65535 < 65536)]
  rw [hfold]
  omega

/-- Witness for C1's amended theorem at `next = 0`, `p = 10`. -/
theorem claimC1_witness :
    ((cexParams.in_receive_window PacketType.Command 10).1 = true) ↔
      (specWindowAccept 0 10 ∧ ¬(0 < 32768 ∧ 10 = 0 + 32767)) :=
  claimC1_in_receive_window cexParams PacketType.Command 0 10 rfl
    (by decide) (by decide)

/-- C3: the `Ord` instance of `SendRecord` ranks `a` strictly above `b`
exactly when `a` is unsent and `b` is not, or both are unsent and `a` has the
smaller id, or both are sent and `a` has the strictly older last send time,
or both are sent with equal last send times and `a` has the smaller id. -/
theorem claimC3_sendrecord_order (a b : SendRecord) :
    SendRecord.cmp a b = Ordering.gt ↔
      ((a.tries = 0 ∧ b.tries ≠ 0) ∨
       (a.tries = 0 ∧ b.tries = 0 ∧ a.p_id < b.p_id) ∨
       (a.tries ≠ 0 ∧ b.tries ≠ 0 ∧
         (a.last < b.last ∨ (a.last = b.last ∧ a.p_id < b.p_id)))) := by
  by_cases h1 : a.tries = 0 <;> by_cases h2 : b.tries = 0 <;>
    rcases lt_trichotomy a.last b.last with hl | hl | hl <;>
      rcases Nat.lt_trichotomy a.p_id b.p_id with hp | hp | hp <;>
        simp [SendRecord.cmp, cmpNat, cmpInt, Ordering.swap, h1, h2, hl, hp,
          lt_asymm, ne_of_gt, ne_of_lt]

/-- C8: `send_voice_packets` returns `true` exactly in the `Normal` state and
`false` in `Connecting`, `Stalling`, `Dead` and `Disconnecting`. -/
theorem claimC8_voice_only_normal (r : DefaultResender) (pt : PacketType) :
    send_voice_packets r pt = true ↔ r.state.isNormal = true := by
  obtain ⟨st, cfg, s1, s2⟩ := r
  cases st <;> simp [send_voice_packets, ResendStates.isNormal]

theorem ackRemove_isStalling (pt : PacketType) (pid : Nat) (s : ResendStates) :
    ((ackRemove pt pid s).2).isStalling = s.isStalling := by
  cases s <;> rfl

theorem update_srtt_srtt_dev_raw (x : DefaultResender) (d : Int) :
    (update_srtt x d).srtt_dev =
      x.srtt_dev * 3 / 4 + (if d > x.srtt then d - x.srtt else x.srtt - d) / 4 :=
  rfl

theorem update_srtt_srtt_raw (x : DefaultResender) (d : Int) :
    (update_srtt x d).srtt = x.srtt * 7 / 8 + d / 8 :=
  rfl

theorem branch_diff_eq_abs (s d : Int) :
    (if d > s then d - s else s - d) = |d - s| := by
  rcases lt_or_le s d with h | h
  · rw [if_pos h, abs_of_pos (by omega)]
  · rw [if_neg (by omega), abs_of_nonpos (by omega), neg_sub]

theorem update_srtt_srtt_dev (x : DefaultResender) (d : Int) :
    (update_srtt x d).srtt_dev = 3 * x.srtt_dev / 4 + |d - x.srtt| / 4 := by
  rw [update_srtt_srtt_dev_raw, branch_diff_eq_abs x.srtt d, Int.mul_comm]

theorem update_srtt_srtt (x : DefaultResender) (d : Int) :
    (update_srtt x d).srtt = 7 * x.srtt / 8 + d / 8 := by
  rw [update_srtt_srtt_raw, Int.mul_comm]

/-- C2 (amended): `update_srtt` computes exactly
`srtt_dev' = 3·srtt_dev/4 + |rtt − srtt|/4` and `srtt' = 7·srtt/8 + rtt/8` in
integer duration arithmetic, and outside the `Stalling` state `ack_packet`
applies it with `rtt = now − sent` exactly when the acknowledged record has
`tries = 1` and otherwise leaves `srtt` and `srtt_dev` unchanged.  (In
`Stalling`, the subsequent `Stalling → Normal` transition overwrites `srtt`
with `normal_timeout / 4`, so the unchanged-field part of the original claim
does not hold there.) -/
theorem claimC2_srtt_update (r : DefaultResender) (rtt now : Int)
    (pt : PacketType) (pid : Nat) (ar : SendRecord) (st' : ResendStates)
    (hS : r.state.isStalling = false)
    (hR : ackRemove pt pid r.state = (some ar, st')) :
    ((update_srtt r rtt).srtt_dev = 3 * r.srtt_dev / 4 + |rtt - r.srtt| / 4 ∧
     (update_srtt r rtt).srtt = 7 * r.srtt / 8 + rtt / 8) ∧
    ((ar.tries = 1 →
        (ack_packet now r pt pid).srtt_dev =
          3 * r.srtt_dev / 4 + |(now - ar.sent) - r.srtt| / 4 ∧
        (ack_packet now r pt pid).srtt =
          7 * r.srtt / 8 + (now - ar.sent) / 8) ∧
     (ar.tries ≠ 1 →
        (ack_packet now r pt pid).srtt = r.srtt ∧
        (ack_packet now r pt pid).srtt_dev = r.srtt_dev)) := by
  have hst : st'.isStalling = false := by
    have h := ackRemove_isStalling pt pid r.state
    rw [hR] at h
    rw [h, hS]
  have hack : ack_packet now r pt pid =
      if ar.tries = 1 then update_srtt { r with state := st' } (now - ar.sent)
      else { r with state := st' } := by
    by_cases ht : ar.tries = 1 <;>
      cases st' <;>
        simp_all [ack_packet, update_srtt, ResendStates.isStalling]
  refine ⟨⟨update_srtt_srtt_dev r rtt, update_srtt_srtt r rtt⟩, ?_, ?_⟩
  · intro ht
    rw [hack, if_pos ht]
    exact ⟨update_srtt_srtt_dev { r with state := st' } (now - ar.sent),
      update_srtt_srtt { r with state := st' } (now - ar.sent)⟩
  · intro ht
    rw [hack, if_neg ht]
    exact ⟨rfl, rfl⟩

/-- C2 (counterexample): in the `Stalling` state, acknowledging a record with
`tries = 2` changes `srtt` (the stalling-exit reset sets it to
`normal_timeout / 4`), so the claim's unchanged-field clause fails there. -/
theorem claimC2_counterexample :
    ackRemove PacketType.Command 1 stallingResender.state =
      (some recA, ResendStates.Stalling [] 0) ∧
    recA.tries ≠ 1 ∧
    (ack_packet 50 stallingResender PacketType.Command 1).srtt ≠
      stallingResender.srtt := by
  refine ⟨by decide, by decide, by decide⟩

/-- Witness for C2's amended theorem: acknowledging `recB` (`tries = 1`) in a
`Normal`-state resender updates `srtt` and `srtt_dev` by the smoothing
formulas. -/
theorem claimC2_witness :
    ((update_srtt normalResender 60).srtt_dev =
       3 * normalResender.srtt_dev / 4 + |60 - normalResender.srtt| / 4 ∧
     (update_srtt normalResender 60).srtt =
       7 * normalResender.srtt / 8 + 60 / 8) ∧
    (ack_packet 50 normalResender PacketType.Command 2).srtt_dev =
      3 * normalResender.srtt_dev / 4 +
        |(50 - recB.sent) - normalResender.srtt| / 4 ∧
    (ack_packet 50 normalResender PacketType.Command 2).srtt =
      7 * normalResender.srtt / 8 + (50 - recB.sent) / 8 := by
  have h := claimC2_srtt_update normalResender 60 50 PacketType.Command 2 recB
    (ResendStates.Normal []) (by decide) (by decide)
  exact ⟨h.1, (h.2.1 (by decide)).1, (h.2.1 (by decide)).2⟩

/-- C4: acknowledging any packet while the resender is `Stalling` transitions
it to `Normal` over the remaining queue, resets every remaining record's
`tries` to `0`, sets `srtt = normal_timeout / 4`, and removes no queued
record other than (at most) the acknowledged one. -/
theorem claimC4_stalling_ack (r : DefaultResender) (v : List SendRecord)
    (t now : Int) (pt : PacketType) (pid : Nat)
    (hS : r.state = ResendStates.Stalling v t) :
    (ack_packet now r pt pid).state =
      ResendStates.Normal
        ((removeFirst pt pid v).2.map fun sr => { sr with tries := 0 }) ∧
    (ack_packet now r pt pid).srtt = r.config.normal_timeout / 4 ∧
    (∀ sr ∈ (ack_packet now r pt pid).state.to_send_list, sr.tries = 0) ∧
    (∀ sr ∈ v, (sr.p_type = pt ∧ sr.p_id = pid) ∨
      { sr with tries := 0 } ∈ (ack_packet now r pt pid).state.to_send_list) := by
  obtain ⟨st, cfg, s1, s2⟩ := r
  simp only at hS
  subst hS
  have hmain :
      (ack_packet now ⟨ResendStates.Stalling v t, cfg, s1, s2⟩ pt pid).state =
        ResendStates.Normal
          ((removeFirst pt pid v).2.map fun sr => { sr with tries := 0 }) ∧
      (ack_packet now ⟨ResendStates.Stalling v t, cfg, s1, s2⟩ pt pid).srtt =
        cfg.normal_timeout / 4 := by
    rcases h0 : (removeFirst pt pid v).1 with _ | ar
    · simp [ack_packet, ackRemove, h0, update_srtt]
    · by_cases ht : ar.tries = 1 <;>
        simp [ack_packet, ackRemove, h0, ht, update_srtt]
  refine ⟨hmain.1, hmain.2, ?_, ?_⟩
  · intro sr hsr
    rw [hmain.1] at hsr
    simp only [ResendStates.to_send_list, List.mem_map] at hsr
    obtain ⟨x, _, hx⟩ := hsr
    rw [← hx]
  · intro sr hsr
    rcases removeFirst_mem_of_not_matching pt pid v sr hsr with h | h
    · exact Or.inl h
    · right
      rw [hmain.1]
      simp only [ResendStates.to_send_list]
      exact List.mem_map_of_mem _ h

/-- Witness for C4 at a concrete `Stalling` resender holding one record. -/
theorem claimC4_witness :
    (ack_packet 50 stallingResender PacketType.Command 1).state =
      ResendStates.Normal
        ((removeFirst PacketType.Command 1 [recA]).2.map
          fun sr => { sr with tries := 0 }) ∧
    (ack_packet 50 stallingResender PacketType.Command 1).srtt =
      stallingResender.config.normal_timeout / 4 :=
  ⟨(claimC4_stalling_ack stallingResender [recA] 0 50 PacketType.Command 1
      rfl).1,
   (claimC4_stalling_ack stallingResender [recA] 0 50 PacketType.Command 1
      rfl).2.1⟩

/-- C5: in every resender state, `start_send` with a full queue
(`≥ max_send_queue_len` entries) returns `NotReady` carrying back exactly the
submitted triple and leaves the resender (in particular the queue) unchanged;
otherwise it appends a fresh record with `tries = 0` and returns `Ready`. -/
theorem claimC5_start_send_backpressure (r : DefaultResender) (now : Int)
    (pt : PacketType) (pid : Nat) (pkt : UdpPacket) :
    (r.state.to_send_list.length ≥ r.config.max_send_queue_len →
       start_send now r pt pid pkt = (r, AsyncSink.NotReady (pt, pid, pkt))) ∧
    (r.state.to_send_list.length < r.config.max_send_queue_len →
       (start_send now r pt pid pkt).2 = AsyncSink.Ready ∧
       (start_send now r pt pid pkt).1.state.to_send_list =
         r.state.to_send_list ++
           [{ sent := now, last := now, tries := 0, p_type := pt, p_id := pid,
              packet := pkt }]) := by
  obtain ⟨st, cfg, s1, s2⟩ := r
  cases st <;>
    constructor <;>
      intro h <;>
        simp_all [start_send, ResendStates.to_send_list, Nat.not_le.mpr]

/-- Witness for C5: a full queue bounces the triple back; a non-full queue
accepts and appends. -/
theorem claimC5_witness :
    start_send 0 fullResender PacketType.Ping 9 [] =
      (fullResender, AsyncSink.NotReady (PacketType.Ping, 9, [])) ∧
    (start_send 0 normalResender PacketType.Ping 9 []).2 = AsyncSink.Ready ∧
    (start_send 0 normalResender PacketType.Ping 9 []).1.state.to_send_list =
      normalResender.state.to_send_list ++
        [{ sent := 0, last := 0, tries := 0, p_type := PacketType.Ping,
           p_id := 9, packet := [] }] :=
  ⟨(claimC5_start_send_backpressure fullResender 0 PacketType.Ping 9 []).1
      (by decide),
   ((claimC5_start_send_backpressure normalResender 0 PacketType.Ping 9 []).2
      (by decide)).1,
   ((claimC5_start_send_backpressure normalResender 0 PacketType.Ping 9 []).2
      (by decide)).2⟩

/-- C9: an accepted `start_send` in `Connecting` or `Disconnecting` also
overwrites the state's `start_time` with the current time, so the
connecting/disconnect timeout is measured from the most recent accepted
enqueue; in `Normal`, `Stalling` and `Dead` an accepted `start_send` changes
nothing but the queue (in particular `Stalling`/`Dead` keep their
`start_time`, and `srtt`, `srtt_dev` and the config are untouched). -/
theorem claimC9_start_send_start_time (r : DefaultResender) (now : Int)
    (pt : PacketType) (pid : Nat) (pkt : UdpPacket) :
    (∀ v t, r.state = ResendStates.Connecting v t →
       v.length < r.config.max_send_queue_len →
       (start_send now r pt pid pkt).1 =
         { r with state := (ResendStates.Connecting
             (v ++ [{ sent := now, last := now, tries := 0, p_type := pt,
                      p_id := pid, packet := pkt }]) now) }) ∧
    (∀ v t, r.state = ResendStates.Disconnecting v t →
       v.length < r.config.max_send_queue_len →
       (start_send now r pt pid pkt).1 =
         { r with state := (ResendStates.Disconnecting
             (v ++ [{ sent := now, last := now, tries := 0, p_type := pt,
                      p_id := pid, packet := pkt }]) now) }) ∧
    (∀ v, r.state = ResendStates.Normal v →
       v.length < r.config.max_send_queue_len →
       (start_send now r pt pid pkt).1 =
         { r with state := (ResendStates.Normal
             (v ++ [{ sent := now, last := now, tries := 0, p_type := pt,
                      p_id := pid, packet := pkt }])) }) ∧
    (∀ v t, r.state = ResendStates.Stalling v t →
       v.length < r.config.max_send_queue_len →
       (start_send now r pt pid pkt).1 =
         { r with state := (ResendStates.Stalling
             (v ++ [{ sent := now, last := now, tries := 0, p_type := pt,
                      p_id := pid, packet := pkt }]) t) }) ∧
    (∀ v t, r.state = ResendStates.Dead v t →
       v.length < r.config.max_send_queue_len →
       (start_send now r pt pid pkt).1 =
         { r with state := (ResendStates.Dead
             (v ++ [{ sent := now, last := now, tries := 0, p_type := pt,
                      p_id := pid, packet := pkt }]) t) }) := by
  obtain ⟨st, cfg, s1, s2⟩ := r
  refine ⟨?_, ?_, ?_, ?_, ?_⟩ <;>
    first
      | (intro v t hst h
         subst hst
         simp_all [start_send, Nat.not_le.mpr])
      | (intro v hst h
         subst hst
         simp_all [start_send, Nat.not_le.mpr])

/-- Witness for C9: an accepted send in a concrete `Connecting` resender
(queue empty, `start_time = 42`) restamps `start_time` to the send time `5`. -/
theorem claimC9_witness :
    (start_send 5 connectingResender PacketType.Command 3 []).1 =
      { connectingResender with state := (ResendStates.Connecting
          ([] ++ [{ sent := 5, last := 5, tries := 0,
                    p_type := PacketType.Command, p_id := 3, packet := [] }])
          5) } :=
  (claimC9_start_send_start_time connectingResender 5 PacketType.Command 3
    []).1 [] 42 rfl (by decide)

theorem findIdLoop_sound (c : Finset Nat) :
    ∀ (fuel i n : Nat), findIdLoop c i fuel = some n →
      i ≤ n ∧ n < i + fuel ∧ n ∉ c ∧ ∀ m, i ≤ m → m < n → m ∈ c := by
  intro fuel
  induction fuel with
  | zero => intro i n h; simp [findIdLoop] at h
  | succ k ih =>
    intro i n h
    simp only [findIdLoop] at h
    by_cases hi : i ∈ c
    · rw [if_pos hi] at h
      obtain ⟨h1, h2, h3, h4⟩ := ih (i + 1) n h
      refine ⟨by omega, by omega, h3, ?_⟩
      intro m hm1 hm2
      rcases Nat.eq_or_lt_of_le hm1 with he | hl
      · rwa [he] at hi
      · exact h4 m (by omega) hm2
    · rw [if_neg hi] at h
      obtain rfl := Option.some.inj h
      exact ⟨le_refl _, by omega, hi,
        fun m hm1 hm2 => absurd hm2 (by omega)⟩

theorem findIdLoop_complete (c : Finset Nat) :
    ∀ (fuel i n : Nat), i ≤ n → n < i + fuel → n ∉ c →
      (∀ m, i ≤ m → m < n → m ∈ c) → findIdLoop c i fuel = some n := by
  intro fuel
  induction fuel with
  | zero => intro i n h1 h2 h3 h4; exact absurd h2 (by omega)
  | succ k ih =>
    intro i n h1 h2 h3 h4
    simp only [findIdLoop]
    by_cases hi : i ∈ c
    · rw [if_pos hi]
      have hin : i ≠ n := fun he => h3 (he ▸ hi)
      exact ih (i + 1) n (by omega) (by omega) h3
        (fun m hm1 hm2 => h4 m (by omega) hm2)
    · rw [if_neg hi]
      have he : i = n := by
        by_contra hne
        exact hi (h4 i (le_refl i) (by omega))
      rw [he]

/-- C6: `find_connection_id` returns exactly the smallest non-negative
integer that is not currently a key of the connection map. -/
theorem claimC6_find_connection_id (cm : InnerCM) (n : Nat) :
    cm.find_connection_id = some n ↔
      (n ∉ cm.connections ∧ ∀ m < n, m ∈ cm.connections) := by
  constructor
  · intro h
    obtain ⟨_, _, h3, h4⟩ := findIdLoop_sound cm.connections _ _ _ h
    exact ⟨h3, fun m hm => h4 m (Nat.zero_le m) hm⟩
  · rintro ⟨h1, h2⟩
    have hcard : n ≤ cm.connections.card := by
      by_contra hgt
      push_neg at hgt
      have hsub : Finset.range n ⊆ cm.connections := by
        intro m hm
        exact h2 m (Finset.mem_range.mp hm)
      have hc := Finset.card_le_card hsub
      rw [Finset.card_range] at hc
      omega
    exact findIdLoop_complete cm.connections (cm.connections.card + 1) 0 n
      (Nat.zero_le n) (by omega) h1 (fun m _ hm => h2 m hm)

/-- C10: for every connection map the scan over `0 ..= N` (with `N` the
number of live connections) finds an absent id, so `find_connection_id`
always returns an id and the `unreachable!` branch is dead code. -/
theorem claimC10_scan_total (cm : InnerCM) :
    ∃ n, cm.find_connection_id = some n := by
  have hex : ∃ k, k ≤ cm.connections.card ∧ k ∉ cm.connections := by
    by_contra hc
    push_neg at hc
    have hsub : Finset.range (cm.connections.card + 1) ⊆ cm.connections := by
      intro m hm
      exact hc m (Nat.lt_succ_iff.mp (Finset.mem_range.mp hm))
    have hcard := Finset.card_le_card hsub
    rw [Finset.card_range] at hcard
    omega
  obtain ⟨k0, hk0le, hk0⟩ := hex
  have hexists : ∃ k, k ∉ cm.connections := ⟨k0, hk0⟩
  refine ⟨Nat.find hexists, ?_⟩
  have hspec : Nat.find hexists ∉ cm.connections := Nat.find_spec hexists
  have hmin : ∀ m, m < Nat.find hexists → m ∈ cm.connections := by
    intro m hm
    have hn := Nat.find_min hexists hm
    simpa using hn
  have hle : Nat.find hexists ≤ cm.connections.card :=
    le_trans (Nat.find_min' hexists hk0) hk0le
  exact findIdLoop_complete cm.connections (cm.connections.card + 1) 0 _
    (Nat.zero_le _) (by omega) hspec (fun m _ hm => hmin m hm)

/-- C7: removing a connection id that is not a key of the map returns the
immediately resolved outcome and leaves the manager state unchanged. -/
theorem claimC7_remove_unknown (cm : InnerCM) (id : Nat)
    (h : id ∉ cm.connections) :
    cm.remove_connection id = (cm, RemoveOutcome.immediateOk) := by
  simp [InnerCM.remove_connection, h]

/-- Witness for C7 on the empty manager. -/
theorem claimC7_witness :
    emptyCM.remove_connection 3 = (emptyCM, RemoveOutcome.immediateOk) :=
  claimC7_remove_unknown emptyCM 3 (by decide)
